import Mathlib

/-!
Shallow embedding of the mass-broadcast engine of
`bot/services/mailing.py` (functions `send_mass_message`,
`_send_media_message`, `_update_error_summary`, `send_to_channel`) and the
rate-limit configuration of `bot/config/settings.py` (`RateLimits`).

The transport (the aiogram `Bot`) is modelled as an oracle giving the
outcome of each send call: success, or one of the exception classes the
engine handles (`TelegramRetryAfter`, `TelegramForbiddenError`,
`TelegramAPIError`, any other `Exception`).  The oracle is a function of
the 1-based position of the recipient in the list, the recipient id, and
the attempt number (0 = first attempt, 1 = the retry performed inside the
`TelegramRetryAfter` handler).

Suspensions (`asyncio.sleep`) and transport dispatches are recorded in an
event trace, so that temporal claims (rate-limit spacing, retry backoff,
"transport never invoked") become statements about the trace.  Durations
are rationals: `delay = 1/rps`, and the seconds carried by a RetryAfter.
-/

namespace Mailing

/-- `MessageContent` from `bot/services/mailing.py`.  `reply_markup` is an
opaque payload the engine only forwards, modelled as `Option Unit`. -/
structure MessageContent where
  text : Option String := none
  media_file_id : Option String := none
  media_type : Option String := none
  reply_markup : Option Unit := none
deriving DecidableEq

/-- Outcome of one transport call, as classified by the engine's exception
handlers: success, `TelegramRetryAfter(seconds)`, `TelegramForbiddenError`,
`TelegramAPIError` (with `error_code` when the attribute is present), or
any other exception. -/
inductive Outcome where
  | ok
  | retryAfter (seconds : ℚ)
  | forbidden
  | apiError (code : Option ℤ)
  | unexpected
deriving DecidableEq

/-- Transport oracle: 1-based list position, recipient id, attempt number
(0 = first attempt, 1 = the retry) ↦ outcome of that send call. -/
abbrev Transport := ℕ → ℤ → ℕ → Outcome

/-- Exception classes distinguished by the `except` clauses of the loop in
`send_mass_message`.  `other` covers both the `ValueError` raised by
`_send_media_message` for an unsupported media type and any unexpected
transport fault. -/
inductive Exc where
  | retryAfter (seconds : ℚ)
  | forbidden
  | apiError (code : Option ℤ)
  | other
deriving DecidableEq

/-- Observable events of one broadcast run: a transport dispatch to a
recipient (`isMedia` = dispatched through `_send_media_message`), or a
cooperative suspension of `d` seconds (`asyncio.sleep d`). -/
inductive Event where
  | tsend (user : ℤ) (isMedia : Bool)
  | sleep (d : ℚ)
deriving DecidableEq

/-- Result of one send attempt: the message went out, an exception was
raised, or the content was empty so no send path applied. -/
inductive AttemptResult where
  | sentOk
  | raised (e : Exc)
  | empty
deriving DecidableEq

/-- The four media types accepted by `_send_media_message`. -/
def supportedMedia (k : String) : Bool :=
  k = "photo" || k = "video" || k = "animation" || k = "document"

/-- Reinterpret a transport outcome as the attempt result seen by the
engine's handlers. -/
def outcomeToResult : Outcome → AttemptResult
  | .ok => .sentOk
  | .retryAfter s => .raised (.retryAfter s)
  | .forbidden => .raised .forbidden
  | .apiError c => .raised (.apiError c)
  | .unexpected => .raised .other

/-- One send attempt, mirroring the dispatch of `send_mass_message` (and
of the retry block, and of `send_to_channel`):
`if content.media_file_id and content.media_type:` call
`_send_media_message` — which raises `ValueError` before any transport
call when the media type is unsupported — `elif content.text:` call
`bot.send_message`; `else:` no send path.  Returns the attempt result and
the transport-dispatch events of the attempt. -/
def attemptSend (tr : Transport) (idx : ℕ) (user : ℤ) (attempt : ℕ)
    (content : MessageContent) : AttemptResult × List Event :=
  match content.media_file_id, content.media_type with
  | some _, some k =>
      if supportedMedia k then
        (outcomeToResult (tr idx user attempt), [Event.tsend user true])
      else
        (.raised .other, [])
  | _, _ =>
      match content.text with
      | some _ => (outcomeToResult (tr idx user attempt), [Event.tsend user false])
      | none => (.empty, [])

/-- Which send path `attemptSend` dispatches through, if any:
`some true` = media send, `some false` = plain text send, `none` = no
transport call (empty content, or media with an unsupported type). -/
def sendsVia (content : MessageContent) : Option Bool :=
  match content.media_file_id, content.media_type with
  | some _, some k => if supportedMedia k then some true else none
  | _, _ =>
      match content.text with
      | some _ => some false
      | none => none

/-- Mutable accumulator of `send_mass_message`'s loop, plus the event
trace. -/
structure MailState where
  sent_count : ℕ
  failed_count : ℕ
  skipped_count : ℕ
  error_summary : List (String × ℕ)
  events : List Event
deriving DecidableEq

/-- `_update_error_summary`: `summary[error_type] = summary.get(error_type, 0) + 1`,
on a dict modelled as an insertion-ordered association list. -/
def _update_error_summary : List (String × ℕ) → String → List (String × ℕ)
  | [], k => [(k, 1)]
  | (k', v) :: rest, k =>
      if k' = k then (k', v + 1) :: rest
      else (k', v) :: _update_error_summary rest k

/-- Histogram key recorded for a `TelegramAPIError`:
`f"api_error_{e.error_code}"` when the exception carries an `error_code`,
plain `"api_error"` otherwise. -/
def apiErrorKey : Option ℤ → String
  | some c => "api_error_" ++ toString c
  | none => "api_error"

/-- One iteration of the `for idx, user_id in enumerate(recipients, 1)`
loop of `send_mass_message`: first attempt; on success sleep `delay` when
`idx < n` (`n` = number of recipients); on `TelegramRetryAfter s` sleep
`s` and retry once, counting a successful retry as sent and any exception
of the retry as failed with key `"retry_failed"`; on the other exception
classes count as failed with the matching histogram key. -/
def processOne (tr : Transport) (content : MessageContent) (delay : ℚ)
    (n idx : ℕ) (user : ℤ) (st : MailState) : MailState :=
  match attemptSend tr idx user 0 content with
  | (.empty, ev) =>
      { st with skipped_count := st.skipped_count + 1,
                events := st.events ++ ev }
  | (.sentOk, ev) =>
      { st with sent_count := st.sent_count + 1,
                events := st.events ++ ev ++
                  (if idx < n then [Event.sleep delay] else []) }
  | (.raised (.retryAfter s), ev) =>
      match attemptSend tr idx user 1 content with
      | (.sentOk, ev2) =>
          { st with sent_count := st.sent_count + 1,
                    events := st.events ++ ev ++ [Event.sleep s] ++ ev2 }
      | (.empty, ev2) =>
          { st with sent_count := st.sent_count + 1,
                    events := st.events ++ ev ++ [Event.sleep s] ++ ev2 }
      | (.raised _, ev2) =>
          { st with failed_count := st.failed_count + 1,
                    error_summary := _update_error_summary st.error_summary "retry_failed",
                    events := st.events ++ ev ++ [Event.sleep s] ++ ev2 }
  | (.raised .forbidden, ev) =>
      { st with failed_count := st.failed_count + 1,
                error_summary := _update_error_summary st.error_summary "blocked",
                events := st.events ++ ev }
  | (.raised (.apiError c), ev) =>
      { st with failed_count := st.failed_count + 1,
                error_summary := _update_error_summary st.error_summary (apiErrorKey c),
                events := st.events ++ ev }
  | (.raised .other, ev) =>
      { st with failed_count := st.failed_count + 1,
                error_summary := _update_error_summary st.error_summary "unexpected",
                events := st.events ++ ev }

/-- The recipient loop of `send_mass_message`, 1-based index. -/
def mailLoop (tr : Transport) (content : MessageContent) (delay : ℚ)
    (n : ℕ) : ℕ → List ℤ → MailState → MailState
  | _, [], st => st
  | idx, user :: rest, st =>
      mailLoop tr content delay n (idx + 1) rest
        (processOne tr content delay n idx user st)

/-- `MailingResult` from `bot/services/mailing.py`.  `duration_seconds`
(wall-clock elapsed time) is outside the embedding and omitted. -/
structure MailingResult where
  total_recipients : ℕ
  sent_count : ℕ
  failed_count : ℕ
  skipped_count : ℕ
  error_summary : List (String × ℕ)
deriving DecidableEq

/-- `send_mass_message(bot, recipients, content, rps=20)`: runs the loop
with `delay = 1.0 / rps` starting from zeroed counters, and returns the
result summary together with the event trace of the run. -/
def send_mass_message (tr : Transport) (recipients : List ℤ)
    (content : MessageContent) (rps : ℕ := 20) : MailingResult × List Event :=
  let delay : ℚ := 1 / rps
  let st := mailLoop tr content delay recipients.length 1 recipients
    { sent_count := 0, failed_count := 0, skipped_count := 0,
      error_summary := [], events := [] }
  ({ total_recipients := recipients.length,
     sent_count := st.sent_count,
     failed_count := st.failed_count,
     skipped_count := st.skipped_count,
     error_summary := st.error_summary }, st.events)

/-- `send_to_channel(bot, channel_id, content)`: one dispatch with the
same media-vs-text rule, no rate limiting, no retry; empty content or any
exception yields `False`.  Returns the boolean and the event trace. -/
def send_to_channel (tr : Transport) (channel_id : ℤ)
    (content : MessageContent) : Bool × List Event :=
  match attemptSend tr 0 channel_id 0 content with
  | (.sentOk, ev) => (true, ev)
  | (.empty, ev) => (false, ev)
  | (.raised _, ev) => (false, ev)

/-- `RateLimits` from `bot/config/settings.py`, with its defaults.  Note:
`send_mass_message` takes only an `rps` argument; `burst` and
`max_retries` are never consulted by the engine. -/
structure RateLimits where
  broadcast_rps : ℕ := 20
  announce_rps : ℕ := 20
  burst : ℕ := 5
  max_retries : ℕ := 5
deriving DecidableEq

/-! ### Helper lemmas -/

/-- Transport whose every call succeeds. -/
def trOk : Transport := fun _ _ _ => Outcome.ok

/-- Plain text content `{text: "hi"}`. -/
def hiContent : MessageContent := { text := some "hi" }

/-- Fully empty content. -/
def emptyContent : MessageContent := {}

/-- Content with a media reference and the unsupported media type
`"audio"`, and no text. -/
def badMediaContent : MessageContent :=
  { media_file_id := some "file", media_type := some "audio" }

/-- Content with text present and also a media reference with the
unsupported media type `"audio"`. -/
def badMediaTextContent : MessageContent :=
  { text := some "hi", media_file_id := some "file", media_type := some "audio" }

/-! ### Claims -/

/-- Transport that answers the first attempt with `RetryAfter 3` and
every retry with success. -/
def trRetryThenOk : Transport :=
  fun _ _ a => if a = 0 then Outcome.retryAfter 3 else Outcome.ok

/-- Transport that answers the first attempt with `RetryAfter 2` and
every retry with `TelegramAPIError` carrying `error_code = 400`. -/
def trRetryThenApi : Transport :=
  fun _ _ a => if a = 0 then Outcome.retryAfter 2 else Outcome.apiError (some 400)

/-- The zeroed loop accumulator. -/
def st0 : MailState :=
  { sent_count := 0, failed_count := 0, skipped_count := 0,
    error_summary := [], events := [] }

/-- `n`-fold application of `_update_error_summary` with a fixed key. -/
def updN (s : List (String × ℕ)) (key : String) : ℕ → List (String × ℕ)
  | 0 => s
  | n + 1 => _update_error_summary (updN s key n) key

/-- Transport giving `TelegramForbiddenError` for user 2, success for
everyone else. -/
def trForbAt2 : Transport :=
  fun _ u _ => if u = 2 then Outcome.forbidden else Outcome.ok

/-- Transport giving `TelegramForbiddenError` for user 1, success for
everyone else. -/
def trForbAt1 : Transport :=
  fun _ u _ => if u = 1 then Outcome.forbidden else Outcome.ok

/-- Whether an event is a suspension. -/
def isSleep : Event → Bool
  | Event.sleep _ => true
  | _ => false

/-- Whether an event is a media-send dispatch. -/
def isMediaSend : Event → Bool
  | Event.tsend _ m => m
  | _ => false

/-- Spacing between consecutive transport dispatches in a trace: the total
slept time between each dispatch and the one before it (`acc` accumulates
sleep since the last dispatch, `seen` records whether a dispatch has
occurred yet). -/
def gapsAux : List Event → ℚ → Bool → List ℚ
  | [], _, _ => []
  | Event.sleep d :: rest, acc, seen => gapsAux rest (acc + d) seen
  | Event.tsend _ _ :: rest, acc, seen =>
      if seen then acc :: gapsAux rest 0 true else gapsAux rest 0 true

/-- The list of inter-dispatch gaps of a trace: entry `i` is the slept
time between dispatch `i+1` and dispatch `i+2`. -/
def dispatchGaps (evs : List Event) : List ℚ := gapsAux evs 0 false

/-- Transport whose every call raises `TelegramForbiddenError`. -/
def trForbAll : Transport := fun _ _ _ => Outcome.forbidden

/-- Transport whose every call raises `TelegramAPIError` with
`error_code = 400`. -/
def trApi400 : Transport := fun _ _ _ => Outcome.apiError (some 400)

/-- Transport whose every call raises `TelegramAPIError` without an
`error_code` attribute. -/
def trApiNoCode : Transport := fun _ _ _ => Outcome.apiError none

/-- Whether a transport outcome is a success. -/
def okBool : Outcome → Bool
  | Outcome.ok => true
  | _ => false

/-- The spec's `sendOnce(transport, recipient, content) -> bool` contract
(§4.5), expressed over the same transport oracle: when a send path exists,
dispatch once through it and report `true` exactly on success; when no
send path exists (empty content, or media with an unsupported kind whose
dispatch raises before the transport), report `false` with no dispatch. -/
def sendOnceSpec (tr : Transport) (channel_id : ℤ)
    (content : MessageContent) : Bool × List Event :=
  match sendsVia content with
  | some b => (okBool (tr 0 channel_id 0), [Event.tsend channel_id b])
  | none => (false, [])

/-- Content with text and an orphan media reference (no media kind). -/
def textPlusOrphanMedia : MessageContent :=
  { text := some "hi", media_file_id := some "file" }

/-! ### Theorems -/

/-- Each loop iteration settles exactly one recipient: the three counters
together grow by exactly one. -/
theorem processOne_sum (tr : Transport) (content : MessageContent) (delay : ℚ)
    (n idx : ℕ) (user : ℤ) (st : MailState) :
    (processOne tr content delay n idx user st).sent_count +
      (processOne tr content delay n idx user st).failed_count +
      (processOne tr content delay n idx user st).skipped_count =
    st.sent_count + st.failed_count + st.skipped_count + 1 := by
  unfold processOne
  rcases h0 : attemptSend tr idx user 0 content with ⟨r, ev⟩
  cases r with
  | sentOk => simp; omega
  | empty => simp; omega
  | raised e =>
    cases e with
    | retryAfter s =>
      rcases h1 : attemptSend tr idx user 1 content with ⟨r2, ev2⟩
      cases r2 with
      | sentOk => simp; omega
      | empty => simp; omega
      | raised e2 => simp; omega
    | forbidden => simp; omega
    | apiError c => simp; omega
    | other => simp; omega

/-- Over the whole loop the three counters grow by the number of
recipients processed. -/
theorem mailLoop_sum (tr : Transport) (content : MessageContent) (delay : ℚ)
    (n : ℕ) : ∀ (rs : List ℤ) (idx : ℕ) (st : MailState),
    (mailLoop tr content delay n idx rs st).sent_count +
      (mailLoop tr content delay n idx rs st).failed_count +
      (mailLoop tr content delay n idx rs st).skipped_count =
    st.sent_count + st.failed_count + st.skipped_count + rs.length := by
  intro rs
  induction rs with
  | nil => intro idx st; simp [mailLoop]
  | cons u rest ih =>
    intro idx st
    have h := processOne_sum tr content delay n idx u st
    simp only [mailLoop, ih, List.length_cons]
    omega

/-- When the content has a send path (`sendsVia = some b`), every attempt
dispatches exactly one transport call and reports the oracle's outcome. -/
theorem attemptSend_of_sendsVia (tr : Transport) (idx : ℕ) (user : ℤ)
    (attempt : ℕ) (content : MessageContent) (b : Bool)
    (hb : sendsVia content = some b) :
    attemptSend tr idx user attempt content =
      (outcomeToResult (tr idx user attempt), [Event.tsend user b]) := by
  unfold sendsVia at hb
  unfold attemptSend
  rcases hf : content.media_file_id with _ | f
  · rcases ht : content.text with _ | t
    · simp [hf, ht] at hb
    · simp [hf, ht] at hb ⊢
      simp [hb]
  · rcases hk : content.media_type with _ | k
    · rcases ht : content.text with _ | t
      · simp [hf, hk, ht] at hb
      · simp [hf, hk, ht] at hb ⊢
        simp [hb]
    · by_cases hs : supportedMedia k
      · simp [hf, hk, hs] at hb ⊢
        simp [hb]
      · simp [hf, hk, hs] at hb

/-- When the content has no media pair and no text, an attempt takes the
`else` branch: no transport call, `skipped` path. -/
theorem attemptSend_empty (tr : Transport) (idx : ℕ) (user : ℤ)
    (attempt : ℕ) (content : MessageContent)
    (ht : content.text = none)
    (hm : content.media_file_id = none ∨ content.media_type = none) :
    attemptSend tr idx user attempt content = (.empty, []) := by
  unfold attemptSend
  rcases hf : content.media_file_id with _ | f <;>
    rcases hk : content.media_type with _ | k <;>
    simp [hf, hk, ht] at hm ⊢

/-- When a media file id is present together with an unsupported media
type, `_send_media_message` raises `ValueError` before any transport
call. -/
theorem attemptSend_unsupported (tr : Transport) (idx : ℕ) (user : ℤ)
    (attempt : ℕ) (content : MessageContent) (f k : String)
    (hf : content.media_file_id = some f) (hk : content.media_type = some k)
    (hks : supportedMedia k = false) :
    attemptSend tr idx user attempt content = (.raised .other, []) := by
  unfold attemptSend
  simp [hf, hk, hks]

/-- A successful first attempt: one dispatch, `sent_count` grows by one,
then the rate-limit sleep `delay` when the recipient is not the last. -/
theorem processOne_ok (tr : Transport) (content : MessageContent)
    (delay : ℚ) (n idx : ℕ) (user : ℤ) (st : MailState) (b : Bool)
    (hb : sendsVia content = some b) (h0 : tr idx user 0 = Outcome.ok) :
    processOne tr content delay n idx user st =
      { st with sent_count := st.sent_count + 1,
                events := st.events ++ [Event.tsend user b] ++
                  (if idx < n then [Event.sleep delay] else []) } := by
  unfold processOne
  rw [attemptSend_of_sendsVia tr idx user 0 content b hb, h0]
  simp [outcomeToResult]

/-- The loop under an always-succeeding transport and dispatching content:
every recipient is counted as sent, nothing else changes. -/
theorem mailLoop_all_ok (tr : Transport) (content : MessageContent)
    (delay : ℚ) (n : ℕ) (b : Bool)
    (hb : sendsVia content = some b)
    (htr : ∀ i u a, tr i u a = Outcome.ok) :
    ∀ (rs : List ℤ) (idx : ℕ) (st : MailState),
    (mailLoop tr content delay n idx rs st).sent_count = st.sent_count + rs.length ∧
    (mailLoop tr content delay n idx rs st).failed_count = st.failed_count ∧
    (mailLoop tr content delay n idx rs st).skipped_count = st.skipped_count ∧
    (mailLoop tr content delay n idx rs st).error_summary = st.error_summary := by
  intro rs
  induction rs with
  | nil => intro idx st; simp [mailLoop]
  | cons u rest ih =>
    intro idx st
    obtain ⟨h1, h2, h3, h4⟩ := ih (idx + 1) (processOne tr content delay n idx u st)
    have hp := processOne_ok tr content delay n idx u st b hb (htr idx u 0)
    simp only [mailLoop]
    refine ⟨?_, ?_, ?_, ?_⟩
    · rw [h1, hp]; simp; omega
    · rw [h2, hp]
    · rw [h3, hp]
    · rw [h4, hp]

/-- An empty-content iteration: the `else` branch records one skip and
touches nothing else (no transport call, no sleep). -/
theorem processOne_skip (tr : Transport) (content : MessageContent)
    (delay : ℚ) (n idx : ℕ) (user : ℤ) (st : MailState)
    (ht : content.text = none)
    (hm : content.media_file_id = none ∨ content.media_type = none) :
    processOne tr content delay n idx user st =
      { st with skipped_count := st.skipped_count + 1 } := by
  unfold processOne
  rw [attemptSend_empty tr idx user 0 content ht hm]
  cases st
  simp

/-- The loop on skip-only content: all recipients are skipped, the event
trace is untouched. -/
theorem mailLoop_skip (tr : Transport) (content : MessageContent)
    (delay : ℚ) (n : ℕ)
    (ht : content.text = none)
    (hm : content.media_file_id = none ∨ content.media_type = none) :
    ∀ (rs : List ℤ) (idx : ℕ) (st : MailState),
    mailLoop tr content delay n idx rs st =
      { st with skipped_count := st.skipped_count + rs.length } := by
  intro rs
  induction rs with
  | nil => intro idx st; cases st; simp [mailLoop]
  | cons u rest ih =>
    intro idx st
    rw [mailLoop, processOne_skip tr content delay n idx u st ht hm, ih]
    cases st
    simp
    omega

/-! ### Concrete transports and contents used by witnesses and
counterexamples -/

/-- Claim C2 (amended): for every recipient list of length N and content
with text present — provided the content does not also carry a media
reference with an unsupported media type, in which case the media branch
raises before any transport call — if every transport call succeeds then
the broadcast returns sent_count = N, failed_count = 0, skipped_count = 0,
total_recipients = N and an empty error histogram. -/
theorem C2_all_success_sends_all (tr : Transport) (recipients : List ℤ)
    (content : MessageContent) (rps : ℕ)
    (htr : ∀ i u a, tr i u a = Outcome.ok)
    (htext : content.text.isSome)
    (hmedia : ∀ f k, content.media_file_id = some f →
      content.media_type = some k → supportedMedia k = true) :
    (send_mass_message tr recipients content rps).1 =
      { total_recipients := recipients.length,
        sent_count := recipients.length,
        failed_count := 0, skipped_count := 0, error_summary := [] } := by
  obtain ⟨t, ht⟩ := Option.isSome_iff_exists.mp htext
  obtain ⟨b, hb⟩ : ∃ b, sendsVia content = some b := by
    unfold sendsVia
    rcases hf : content.media_file_id with _ | f
    · exact ⟨false, by simp [hf, ht]⟩
    · rcases hk : content.media_type with _ | k
      · exact ⟨false, by simp [hf, hk, ht]⟩
      · exact ⟨true, by simp [hf, hk, hmedia f k hf hk]⟩
  obtain ⟨h1, h2, h3, h4⟩ := mailLoop_all_ok tr content (1 / (rps : ℚ))
    recipients.length b hb htr recipients 1
    { sent_count := 0, failed_count := 0, skipped_count := 0,
      error_summary := [], events := [] }
  simp only [send_mass_message]
  rw [MailingResult.mk.injEq]
  refine ⟨rfl, ?_, ?_, ?_, ?_⟩
  · rw [h1]; simp
  · rw [h2]
  · rw [h3]
  · rw [h4]

/-- Claim C2, counterexample to the claim as stated: the content
`{text: "hi", media_file_id: "file", media_type: "audio"}` has text
present and the transport `trOk` succeeds on every call, yet the broadcast
over the single recipient `[1]` sends nothing: the media branch is taken,
`_send_media_message` raises `ValueError` for the unsupported type before
any transport call, and the recipient is counted as failed under
`"unexpected"`, so `sent_count = 0 ≠ 1 = N`. -/
theorem C2_counterexample :
    badMediaTextContent.text.isSome = true ∧
    (send_mass_message trOk [1] badMediaTextContent 20).1 =
      { total_recipients := 1, sent_count := 0, failed_count := 1,
        skipped_count := 0, error_summary := [("unexpected", 1)] } := by
  constructor
  · rfl
  · rfl

/-- Claim C2, witness: the concrete scenario recipients = [1,2,3],
content = {text: "hi"}, all calls succeeding, yields
total = 3, sent = 3, failed = 0, skipped = 0. -/
theorem C2_witness :
    (send_mass_message trOk [1, 2, 3] hiContent 20).1 =
      { total_recipients := 3, sent_count := 3, failed_count := 0,
        skipped_count := 0, error_summary := [] } := by
  have h := C2_all_success_sends_all trOk [1, 2, 3] hiContent 20
    (fun _ _ _ => rfl) (by decide)
    (by intro f k hf hk; simp [hiContent] at hf)
  simpa using h

/-- Claim C3: when the content has neither text nor a media reference,
every recipient is recorded as skipped (skipped_count = N, sent_count = 0,
failed_count = 0) and the event trace is empty: the transport is never
invoked and no rate-limiter sleep occurs. -/
theorem C3_empty_content_all_skipped (tr : Transport) (recipients : List ℤ)
    (content : MessageContent) (rps : ℕ)
    (ht : content.text = none) (hm : content.media_file_id = none) :
    (send_mass_message tr recipients content rps).1 =
      { total_recipients := recipients.length, sent_count := 0,
        failed_count := 0, skipped_count := recipients.length,
        error_summary := [] } ∧
    (send_mass_message tr recipients content rps).2 = [] := by
  have h := mailLoop_skip tr content (1 / (rps : ℚ)) recipients.length ht
    (Or.inl hm) recipients 1
    { sent_count := 0, failed_count := 0, skipped_count := 0,
      error_summary := [], events := [] }
  simp only [send_mass_message]
  rw [h]
  simp

/-- Claim C3, witness: recipients = [1,2] with empty content gives
total = 2, sent = 0, failed = 0, skipped = 2, and an empty event trace. -/
theorem C3_witness :
    (send_mass_message trOk [1, 2] emptyContent 20).1 =
      { total_recipients := 2, sent_count := 0, failed_count := 0,
        skipped_count := 2, error_summary := [] } ∧
    (send_mass_message trOk [1, 2] emptyContent 20).2 = [] := by
  have h := C3_empty_content_all_skipped trOk [1, 2] emptyContent 20 rfl rfl
  simpa using h

/-- Claim C1: for every recipient list and every transport oracle (each
call succeeding or raising one of the four handled signals), the broadcast
returns normally with `total_recipients = length recipients` and
`total_recipients = sent_count + failed_count + skipped_count`: every
recipient is accounted for and no per-recipient failure aborts the
batch. -/
theorem C1_broadcast_accounting_invariant (tr : Transport)
    (recipients : List ℤ) (content : MessageContent) (rps : ℕ) :
    (send_mass_message tr recipients content rps).1.total_recipients =
      recipients.length ∧
    (send_mass_message tr recipients content rps).1.total_recipients =
      (send_mass_message tr recipients content rps).1.sent_count +
        (send_mass_message tr recipients content rps).1.failed_count +
        (send_mass_message tr recipients content rps).1.skipped_count := by
  refine ⟨rfl, ?_⟩
  have h := mailLoop_sum tr content (1 / rps) recipients.length recipients 1
    { sent_count := 0, failed_count := 0, skipped_count := 0,
      error_summary := [], events := [] }
  simp only [send_mass_message]
  simp only at h ⊢
  simp at h ⊢
  omega

/-- Claim C4: for a recipient whose first send attempt raises
`TelegramRetryAfter s`, the engine sleeps exactly `s` and then performs
exactly one more send with no rate-limiter sleep before it (the trace
gains precisely `[tsend, sleep s, tsend]`); if the retry succeeds the
recipient is counted as sent, and if the retry raises any signal it is
counted as failed under histogram key `"retry_failed"`. -/
theorem C4_retry_after_once (tr : Transport) (content : MessageContent)
    (delay : ℚ) (n idx : ℕ) (user : ℤ) (st : MailState) (s : ℚ) (b : Bool)
    (hb : sendsVia content = some b)
    (h0 : tr idx user 0 = Outcome.retryAfter s) :
    (processOne tr content delay n idx user st).events =
      st.events ++ [Event.tsend user b, Event.sleep s, Event.tsend user b] ∧
    (tr idx user 1 = Outcome.ok →
      processOne tr content delay n idx user st =
        { st with sent_count := st.sent_count + 1,
                  events := st.events ++
                    [Event.tsend user b, Event.sleep s, Event.tsend user b] }) ∧
    (tr idx user 1 ≠ Outcome.ok →
      processOne tr content delay n idx user st =
        { st with failed_count := st.failed_count + 1,
                  error_summary := _update_error_summary st.error_summary "retry_failed",
                  events := st.events ++
                    [Event.tsend user b, Event.sleep s, Event.tsend user b] }) := by
  have ha0 := attemptSend_of_sendsVia tr idx user 0 content b hb
  have ha1 := attemptSend_of_sendsVia tr idx user 1 content b hb
  unfold processOne
  rw [ha0, h0, ha1]
  rcases ho1 : tr idx user 1 with _ | s2 | _ | c | _ <;>
    simp only [outcomeToResult] <;> cases st <;>
    refine ⟨by simp, fun hok => ?_, fun hne => ?_⟩
  all_goals try (exact absurd rfl hne)
  all_goals try (exact Outcome.noConfusion hok)
  all_goals simp

/-- Claim C4, witness: with transports answering the first attempt with
RetryAfter and the retry with success (resp. `ApiError 400`), one
recipient yields the trace `[tsend, sleep, tsend]` and is counted as sent
(resp. as failed under `"retry_failed"`). -/
theorem C4_witness :
    (processOne trRetryThenOk hiContent (1 / 20) 1 1 7 st0).events =
      [Event.tsend 7 false, Event.sleep 3, Event.tsend 7 false] ∧
    (processOne trRetryThenOk hiContent (1 / 20) 1 1 7 st0).sent_count = 1 ∧
    (processOne trRetryThenApi hiContent (1 / 20) 1 1 7 st0).failed_count = 1 ∧
    (processOne trRetryThenApi hiContent (1 / 20) 1 1 7 st0).error_summary =
      [("retry_failed", 1)] := by
  have hA := C4_retry_after_once trRetryThenOk hiContent (1 / 20) 1 1 7 st0 3
    false (by decide) (by decide)
  have hB := C4_retry_after_once trRetryThenApi hiContent (1 / 20) 1 1 7 st0 2
    false (by decide) (by decide)
  refine ⟨?_, ?_, ?_, ?_⟩
  · simpa [st0] using hA.1
  · rw [hA.2.1 (by decide)]; simp [st0]
  · rw [hB.2.2 (by decide)]; simp [st0]
  · rw [hB.2.2 (by decide)]; simp [st0, _update_error_summary]

/-- A first attempt answered with `TelegramForbiddenError`: the recipient
is counted as failed under `"blocked"`, with no retry and no sleep. -/
theorem processOne_forbidden (tr : Transport) (content : MessageContent)
    (delay : ℚ) (n idx : ℕ) (user : ℤ) (st : MailState) (b : Bool)
    (hb : sendsVia content = some b)
    (h0 : tr idx user 0 = Outcome.forbidden) :
    processOne tr content delay n idx user st =
      { st with failed_count := st.failed_count + 1,
                error_summary := _update_error_summary st.error_summary "blocked",
                events := st.events ++ [Event.tsend user b] } := by
  unfold processOne
  rw [attemptSend_of_sendsVia tr idx user 0 content b hb, h0]
  simp [outcomeToResult]

theorem updN_shift (s : List (String × ℕ)) (key : String) (n : ℕ) :
    updN (_update_error_summary s key) key n = updN s key (n + 1) := by
  induction n with
  | zero => rfl
  | succ m ih => rw [updN, ih]; rfl

/-- Repeated updates of the same key starting from the empty histogram
give the singleton histogram. -/
theorem updN_nil (key : String) (n : ℕ) :
    updN [] key n = if n = 0 then [] else [(key, n)] := by
  induction n with
  | zero => rfl
  | succ m ih =>
    rw [updN, ih]
    rcases Nat.eq_zero_or_pos m with hm | hm
    · subst hm; rfl
    · rw [if_neg (by omega), if_neg (by omega)]
      simp [_update_error_summary]

/-- The loop under a transport that answers `Forbidden` for user `X` and
success for everyone else: failures count the occurrences of `X`, the
histogram collects that many `"blocked"` entries, nobody is skipped. -/
theorem mailLoop_forbidden_at (tr : Transport) (content : MessageContent)
    (delay : ℚ) (n : ℕ) (X : ℤ) (b : Bool)
    (hb : sendsVia content = some b)
    (htr : ∀ i u a, tr i u a = if u = X then Outcome.forbidden else Outcome.ok) :
    ∀ (rs : List ℤ) (idx : ℕ) (st : MailState),
    (mailLoop tr content delay n idx rs st).failed_count =
      st.failed_count + rs.count X ∧
    (mailLoop tr content delay n idx rs st).skipped_count = st.skipped_count ∧
    (mailLoop tr content delay n idx rs st).error_summary =
      updN st.error_summary "blocked" (rs.count X) := by
  intro rs
  induction rs with
  | nil => intro idx st; simp [mailLoop, updN]
  | cons u rest ih =>
    intro idx st
    obtain ⟨h1, h2, h3⟩ := ih (idx + 1) (processOne tr content delay n idx u st)
    simp only [mailLoop]
    by_cases hu : u = X
    · have hp := processOne_forbidden tr content delay n idx u st b hb
        (by rw [htr]; simp [hu])
      refine ⟨?_, ?_, ?_⟩
      · rw [h1, hp]; simp [hu, List.count_cons]; omega
      · rw [h2, hp]
      · rw [h3, hp]
        simp only [List.count_cons, hu]
        simp [updN_shift]
    · have hp := processOne_ok tr content delay n idx u st b hb
        (by rw [htr]; simp [hu])
      refine ⟨?_, ?_, ?_⟩
      · rw [h1, hp]; simp [List.count_cons, hu]
      · rw [h2, hp]
      · rw [h3, hp]; simp [List.count_cons, hu]

/-- Claim C5 (amended): for a recipient list in which `X` occurs exactly
once, content that actually dispatches a transport send (text present, or
media with a supported kind), and a transport answering `Forbidden` for
`X` and success for everyone else: `failed_count = 1`, the histogram is
exactly `{blocked: 1}`, nobody is skipped, and `sent_count = N - 1`. -/
theorem C5_forbidden_single (tr : Transport) (recipients : List ℤ)
    (content : MessageContent) (rps : ℕ) (X : ℤ) (b : Bool)
    (hb : sendsVia content = some b)
    (hcount : recipients.count X = 1)
    (htr : ∀ i u a, tr i u a = if u = X then Outcome.forbidden else Outcome.ok) :
    (send_mass_message tr recipients content rps).1.failed_count = 1 ∧
    (send_mass_message tr recipients content rps).1.error_summary =
      [("blocked", 1)] ∧
    (send_mass_message tr recipients content rps).1.skipped_count = 0 ∧
    (send_mass_message tr recipients content rps).1.sent_count =
      recipients.length - 1 := by
  obtain ⟨h1, h2, h3⟩ := mailLoop_forbidden_at tr content (1 / (rps : ℚ))
    recipients.length X b hb htr recipients 1
    { sent_count := 0, failed_count := 0, skipped_count := 0,
      error_summary := [], events := [] }
  have hsum := mailLoop_sum tr content (1 / (rps : ℚ)) recipients.length
    recipients 1
    { sent_count := 0, failed_count := 0, skipped_count := 0,
      error_summary := [], events := [] }
  rw [hcount] at h1 h3
  simp only [send_mass_message]
  refine ⟨?_, ?_, ?_, ?_⟩
  · rw [h1]
  · rw [h3]; rfl
  · rw [h2]
  · simp only at hsum h1 h2 ⊢
    omega

/-- Claim C5, counterexample to the claim as stated: the content
`{media_file_id: "file", media_type: "audio"}` is non-empty (media is
present) and the transport answers `Forbidden` for recipient 1 and
success for recipient 2, yet both recipients are counted as failed under
`"unexpected"` — `failed_count = 2 ≠ 1`, no `"blocked"` histogram entry,
`sent_count = 0 ≠ N - 1` — because the unsupported media type makes
`_send_media_message` raise `ValueError` before any transport call. -/
theorem C5_counterexample :
    badMediaContent.media_file_id.isSome = true ∧
    (send_mass_message trForbAt1 [1, 2] badMediaContent 20).1 =
      { total_recipients := 2, sent_count := 0, failed_count := 2,
        skipped_count := 0, error_summary := [("unexpected", 2)] } := by
  exact ⟨rfl, rfl⟩

/-- Claim C5, witness: recipients [1,2,3] with text content, transport
forbidding only user 2: one failure, histogram `{blocked: 1}`, two
sent. -/
theorem C5_witness :
    (send_mass_message trForbAt2 [1, 2, 3] hiContent 20).1.failed_count = 1 ∧
    (send_mass_message trForbAt2 [1, 2, 3] hiContent 20).1.error_summary =
      [("blocked", 1)] ∧
    (send_mass_message trForbAt2 [1, 2, 3] hiContent 20).1.skipped_count = 0 ∧
    (send_mass_message trForbAt2 [1, 2, 3] hiContent 20).1.sent_count = 2 := by
  have h := C5_forbidden_single trForbAt2 [1, 2, 3] hiContent 20 2 false
    rfl (by decide) (fun _ _ _ => rfl)
  simpa using h

/-- An iteration on content whose media reference carries an unsupported
media type: `_send_media_message` raises `ValueError` before any transport
call, the generic `except Exception` handler counts the recipient as
failed under `"unexpected"`, and no event is emitted. -/
theorem processOne_unsupported (tr : Transport) (content : MessageContent)
    (delay : ℚ) (n idx : ℕ) (user : ℤ) (st : MailState) (f k : String)
    (hf : content.media_file_id = some f) (hk : content.media_type = some k)
    (hks : supportedMedia k = false) :
    processOne tr content delay n idx user st =
      { st with failed_count := st.failed_count + 1,
                error_summary := _update_error_summary st.error_summary "unexpected" } := by
  unfold processOne
  rw [attemptSend_unsupported tr idx user 0 content f k hf hk hks]
  cases st
  simp

/-- The loop on unsupported-media content: every recipient is counted as
failed under `"unexpected"`, and the trace is untouched. -/
theorem mailLoop_unsupported (tr : Transport) (content : MessageContent)
    (delay : ℚ) (n : ℕ) (f k : String)
    (hf : content.media_file_id = some f) (hk : content.media_type = some k)
    (hks : supportedMedia k = false) :
    ∀ (rs : List ℤ) (idx : ℕ) (st : MailState),
    mailLoop tr content delay n idx rs st =
      { st with failed_count := st.failed_count + rs.length,
                error_summary := updN st.error_summary "unexpected" rs.length } := by
  intro rs
  induction rs with
  | nil => intro idx st; cases st; simp [mailLoop, updN]
  | cons u rest ih =>
    intro idx st
    simp only [mailLoop]
    rw [processOne_unsupported tr content delay n idx u st f k hf hk hks, ih]
    cases st
    simp [updN_shift]
    omega

/-- Claim C6 (amended): a media reference with an unsupported media kind
is not surfaced as a configuration error: the broadcast returns normally,
every recipient is counted as a per-recipient failure under histogram key
`"unexpected"` (the `ValueError` raised by `_send_media_message` is caught
by the generic handler), and the transport is never invoked (empty event
trace). -/
theorem C6_unsupported_media_not_failfast (tr : Transport)
    (recipients : List ℤ) (content : MessageContent) (rps : ℕ) (f k : String)
    (hf : content.media_file_id = some f) (hk : content.media_type = some k)
    (hks : supportedMedia k = false) :
    (send_mass_message tr recipients content rps).1 =
      { total_recipients := recipients.length, sent_count := 0,
        failed_count := recipients.length, skipped_count := 0,
        error_summary :=
          if recipients.length = 0 then []
          else [("unexpected", recipients.length)] } ∧
    (send_mass_message tr recipients content rps).2 = [] := by
  have h := mailLoop_unsupported tr content (1 / (rps : ℚ)) recipients.length
    f k hf hk hks recipients 1
    { sent_count := 0, failed_count := 0, skipped_count := 0,
      error_summary := [], events := [] }
  simp only [send_mass_message]
  rw [h]
  simp [updN_nil]

/-- Claim C6, counterexample to the claim as stated: for recipient list
[1] and content `{media_file_id: "file", media_type: "audio"}` the
broadcast does not fail fast with a configuration error; it returns a
normal result in which the recipient IS recorded as a per-recipient
failure (`failed_count = 1`, key `"unexpected"`). -/
theorem C6_counterexample :
    (send_mass_message trOk [1] badMediaContent 20).1 =
      { total_recipients := 1, sent_count := 0, failed_count := 1,
        skipped_count := 0, error_summary := [("unexpected", 1)] } ∧
    (send_mass_message trOk [1] badMediaContent 20).2 = [] := ⟨rfl, rfl⟩

/-- Claim C6, witness: two recipients with unsupported-media content are
both counted as failed under `"unexpected"`, with no transport call. -/
theorem C6_witness :
    (send_mass_message trOk [1, 2] badMediaContent 20).1 =
      { total_recipients := 2, sent_count := 0, failed_count := 2,
        skipped_count := 0, error_summary := [("unexpected", 2)] } ∧
    (send_mass_message trOk [1, 2] badMediaContent 20).2 = [] := by
  have h := C6_unsupported_media_not_failfast trOk [1, 2] badMediaContent 20
    "file" "audio" rfl rfl rfl
  simpa using h

/-- Claim C7 (amended): the engine enforces spacing only after a
successful first-attempt send: after such a send it sleeps exactly
`delay = 1/rps` — except after the last recipient — and the next dispatch
follows; no rate-limiter sleep is emitted after a failed dispatch (and no
burst parameter exists in the engine). -/
theorem C7_delay_only_after_success (tr : Transport)
    (content : MessageContent) (delay : ℚ) (n idx : ℕ) (user : ℤ)
    (st : MailState) (b : Bool)
    (hb : sendsVia content = some b) (h0 : tr idx user 0 = Outcome.ok) :
    (processOne tr content delay n idx user st).events =
      st.events ++ [Event.tsend user b] ++
        (if idx < n then [Event.sleep delay] else []) := by
  rw [processOne_ok tr content delay n idx user st b hb h0]

/-- Claim C7, counterexample to the claim as stated: with
`requests_per_second = 20` and the configured burst `B = 5`, a run over
seven recipients whose dispatches all fail with `Forbidden` produces six
inter-dispatch gaps that are all zero — in particular the gaps after the
(B+1)-th dispatch are 0 < 1/20: failed dispatches get no rate-limiter
spacing at all (the sleep happens only after successful sends). -/
theorem C7_counterexample :
    dispatchGaps
        (send_mass_message trForbAll [1, 2, 3, 4, 5, 6, 7] hiContent 20).2 =
      [0, 0, 0, 0, 0, 0] ∧
    ((dispatchGaps
        (send_mass_message trForbAll [1, 2, 3, 4, 5, 6, 7] hiContent 20).2).drop
          (({} : RateLimits).burst - 1)).all
        (fun g => decide ((1 / 20 : ℚ) ≤ g)) = false := by
  have h1 : dispatchGaps
      (send_mass_message trForbAll [1, 2, 3, 4, 5, 6, 7] hiContent 20).2 =
      [0, 0, 0, 0, 0, 0] := by decide
  refine ⟨h1, ?_⟩
  rw [h1]
  norm_num

/-- Claim C7, witness: a successful non-final send is followed by a sleep
of exactly `delay = 1/20`. -/
theorem C7_witness :
    (processOne trOk hiContent (1 / 20) 2 1 5 st0).events =
      st0.events ++ [Event.tsend 5 false] ++
        (if 1 < 2 then [Event.sleep (1 / 20)] else []) :=
  C7_delay_only_after_success trOk hiContent (1 / 20) 2 1 5 st0 false rfl rfl

/-- A first attempt answered with `TelegramAPIError`: the recipient is
counted as failed under `api_error_<code>` (or `"api_error"` without a
code), with no retry — the trace gains exactly one dispatch. -/
theorem C8_api_error_first_attempt (tr : Transport)
    (content : MessageContent) (delay : ℚ) (n idx : ℕ) (user : ℤ)
    (st : MailState) (c : Option ℤ) (b : Bool)
    (hb : sendsVia content = some b)
    (h0 : tr idx user 0 = Outcome.apiError c) :
    processOne tr content delay n idx user st =
      { st with failed_count := st.failed_count + 1,
                error_summary :=
                  _update_error_summary st.error_summary (apiErrorKey c),
                events := st.events ++ [Event.tsend user b] } := by
  unfold processOne
  rw [attemptSend_of_sendsVia tr idx user 0 content b hb, h0]
  simp [outcomeToResult]

/-- Claim C8, counterexample to the claim as stated ("send (or retry)"):
for recipient [1], a transport answering the first attempt with
`RetryAfter 2` and the retry with `ApiError 400`, the recipient's failure
is recorded under `"retry_failed"`, not under `"api_error_400"`: an
ApiError raised on the retry is swallowed by the retry handler's generic
`except Exception`. -/
theorem C8_counterexample :
    (send_mass_message trRetryThenApi [1] hiContent 20).1.error_summary =
      [("retry_failed", 1)] ∧
    ((send_mass_message trRetryThenApi [1] hiContent 20).1.error_summary.lookup
      "api_error_400") = none := by
  exact ⟨by decide, by decide⟩

/-- Claim C8, witness: a first-attempt `ApiError 400` gives key
`"api_error_400"`; a first-attempt `ApiError` without code gives key
`"api_error"`; each with exactly one dispatch (no retry). -/
theorem C8_witness :
    processOne trApi400 hiContent (1 / 20) 1 1 9 st0 =
      { st0 with failed_count := st0.failed_count + 1,
                 error_summary :=
                   _update_error_summary st0.error_summary (apiErrorKey (some 400)),
                 events := st0.events ++ [Event.tsend 9 false] } ∧
    processOne trApiNoCode hiContent (1 / 20) 1 1 9 st0 =
      { st0 with failed_count := st0.failed_count + 1,
                 error_summary :=
                   _update_error_summary st0.error_summary (apiErrorKey none),
                 events := st0.events ++ [Event.tsend 9 false] } :=
  ⟨C8_api_error_first_attempt trApi400 hiContent (1 / 20) 1 1 9 st0 (some 400)
      false rfl rfl,
   C8_api_error_first_attempt trApiNoCode hiContent (1 / 20) 1 1 9 st0 none
      false rfl rfl⟩

/-- When the content has no send path, an attempt either takes the empty
branch or raises the pre-transport `ValueError`; either way no transport
call and no event. -/
theorem attemptSend_of_sendsVia_none (tr : Transport) (idx : ℕ) (user : ℤ)
    (attempt : ℕ) (content : MessageContent)
    (hv : sendsVia content = none) :
    attemptSend tr idx user attempt content = (.empty, []) ∨
    attemptSend tr idx user attempt content = (.raised .other, []) := by
  unfold sendsVia at hv
  unfold attemptSend
  rcases hf : content.media_file_id with _ | f
  · rcases ht : content.text with _ | t
    · left; simp [hf, ht]
    · simp [hf, ht] at hv
  · rcases hk : content.media_type with _ | k
    · rcases ht : content.text with _ | t
      · left; simp [hf, hk, ht]
      · simp [hf, hk, ht] at hv
    · by_cases hs : supportedMedia k
      · simp [hf, hk, hs] at hv
      · right; simp [hf, hk, hs]

/-- Claim C9: `send_to_channel` refines the spec's `sendOnce` contract —
it returns a boolean that is `true` exactly on a successful dispatch;
empty content yields `false` with no transport call (and an unsupported
media kind likewise yields `false`, its exception swallowed); no signal
or exception propagates (the function is total); and the trace contains
no rate-limiter sleep and at most one dispatch (no retry on
throttling). -/
theorem C9_send_to_channel_contract (tr : Transport) (channel : ℤ)
    (content : MessageContent) :
    send_to_channel tr channel content = sendOnceSpec tr channel content ∧
    ((send_to_channel tr channel content).2.all fun e => !(isSleep e)) = true ∧
    (send_to_channel tr channel content).2.length ≤ 1 := by
  have hmain : send_to_channel tr channel content =
      sendOnceSpec tr channel content := by
    unfold send_to_channel sendOnceSpec
    rcases hv : sendsVia content with _ | b
    · rcases attemptSend_of_sendsVia_none tr 0 channel 0 content hv with h | h <;>
        rw [h]
    · rw [attemptSend_of_sendsVia tr 0 channel 0 content b hv]
      rcases ho : tr 0 channel 0 with _ | s | _ | c | _ <;>
        simp [outcomeToResult, okBool]
  refine ⟨hmain, ?_, ?_⟩
  · rw [hmain]
    unfold sendOnceSpec
    rcases sendsVia content with _ | b <;> simp [isSleep]
  · rw [hmain]
    unfold sendOnceSpec
    rcases sendsVia content with _ | b <;> simp

/-- With no media type tag, an attempt either dispatches as plain text or
takes the empty branch. -/
theorem attemptSend_no_kind (tr : Transport) (idx : ℕ) (user : ℤ)
    (attempt : ℕ) (content : MessageContent)
    (hk : content.media_type = none) :
    attemptSend tr idx user attempt content =
      (outcomeToResult (tr idx user attempt), [Event.tsend user false]) ∨
    attemptSend tr idx user attempt content = (.empty, []) := by
  unfold attemptSend
  rcases hf : content.media_file_id with _ | f <;>
    rcases ht : content.text with _ | t <;> simp [hf, hk, ht]

/-- With no media type tag, removing the media file id does not change any
attempt: the `media_file_id and media_type` guard is already false. -/
theorem attemptSend_congr_no_kind (tr : Transport)
    (content : MessageContent) (hk : content.media_type = none) :
    ∀ (idx : ℕ) (user : ℤ) (attempt : ℕ),
    attemptSend tr idx user attempt content =
      attemptSend tr idx user attempt { content with media_file_id := none } := by
  intro idx user attempt
  unfold attemptSend
  rcases hf : content.media_file_id with _ | f <;> simp [hf, hk]

/-- Contents whose attempts agree produce the same iteration. -/
theorem processOne_congr (tr : Transport) (c c' : MessageContent)
    (delay : ℚ) (n idx : ℕ) (user : ℤ) (st : MailState)
    (h : ∀ a, attemptSend tr idx user a c = attemptSend tr idx user a c') :
    processOne tr c delay n idx user st = processOne tr c' delay n idx user st := by
  unfold processOne
  rw [h 0, h 1]

/-- Contents whose attempts agree produce the same loop. -/
theorem mailLoop_congr (tr : Transport) (c c' : MessageContent)
    (delay : ℚ) (n : ℕ)
    (h : ∀ (idx : ℕ) (user : ℤ) (a : ℕ),
      attemptSend tr idx user a c = attemptSend tr idx user a c') :
    ∀ (rs : List ℤ) (idx : ℕ) (st : MailState),
    mailLoop tr c delay n idx rs st = mailLoop tr c' delay n idx rs st := by
  intro rs
  induction rs with
  | nil => intro idx st; rfl
  | cons u rest ih =>
    intro idx st
    simp only [mailLoop]
    rw [processOne_congr tr c c' delay n idx u st (fun a => h idx u a), ih]

/-- An event predicate that holds on sleeps and on both attempts' events
survives one iteration. -/
theorem processOne_events_all (tr : Transport) (content : MessageContent)
    (delay : ℚ) (n idx : ℕ) (user : ℤ) (st : MailState) (p : Event → Bool)
    (hsleep : ∀ d, p (Event.sleep d) = true)
    (h0 : ((attemptSend tr idx user 0 content).2.all p) = true)
    (h1 : ((attemptSend tr idx user 1 content).2.all p) = true)
    (hst : (st.events.all p) = true) :
    ((processOne tr content delay n idx user st).events.all p) = true := by
  unfold processOne
  rcases ha0 : attemptSend tr idx user 0 content with ⟨r, ev⟩
  rw [ha0] at h0
  simp only at h0
  cases r with
  | empty => simp [List.all_append, hst, h0]
  | sentOk =>
    by_cases hlt : idx < n <;> simp [hlt, List.all_append, hst, h0, hsleep]
  | raised e =>
    cases e with
    | retryAfter s =>
      rcases ha1 : attemptSend tr idx user 1 content with ⟨r2, ev2⟩
      rw [ha1] at h1
      simp only at h1
      cases r2 <;> simp [List.all_append, hst, h0, h1, hsleep]
    | forbidden => simp [List.all_append, hst, h0]
    | apiError c => simp [List.all_append, hst, h0]
    | other => simp [List.all_append, hst, h0]

/-- An event predicate that holds on sleeps and on every attempt's events
survives the whole loop. -/
theorem mailLoop_events_all (tr : Transport) (content : MessageContent)
    (delay : ℚ) (n : ℕ) (p : Event → Bool)
    (hsleep : ∀ d, p (Event.sleep d) = true)
    (hall : ∀ (idx : ℕ) (user : ℤ) (a : ℕ),
      ((attemptSend tr idx user a content).2.all p) = true) :
    ∀ (rs : List ℤ) (idx : ℕ) (st : MailState),
    (st.events.all p) = true →
    ((mailLoop tr content delay n idx rs st).events.all p) = true := by
  intro rs
  induction rs with
  | nil => intro idx st hst; simpa [mailLoop] using hst
  | cons u rest ih =>
    intro idx st hst
    simp only [mailLoop]
    exact ih (idx + 1) _ (processOne_events_all tr content delay n idx u st p
      hsleep (hall idx u 0) (hall idx u 1) hst)

/-- Claim C10: when a media reference is present but the media kind is
absent, the broadcast behaves exactly as if the media attachment were not
there: the run (result and trace) equals the run on the same content with
`media_file_id` removed, no media dispatch ever occurs, and when text is
also absent every recipient is skipped with an empty trace (no transport
call) — no configuration error is raised for the missing kind. -/
theorem C10_media_without_kind (tr : Transport) (recipients : List ℤ)
    (content : MessageContent) (rps : ℕ)
    (hk : content.media_type = none) :
    send_mass_message tr recipients content rps =
      send_mass_message tr recipients
        { content with media_file_id := none } rps ∧
    ((send_mass_message tr recipients content rps).2.all
      fun e => !(isMediaSend e)) = true ∧
    (content.text = none →
      (send_mass_message tr recipients content rps).1 =
        { total_recipients := recipients.length, sent_count := 0,
          failed_count := 0, skipped_count := recipients.length,
          error_summary := [] } ∧
      (send_mass_message tr recipients content rps).2 = []) := by
  refine ⟨?_, ?_, ?_⟩
  · simp only [send_mass_message]
    rw [mailLoop_congr tr content { content with media_file_id := none }
      (1 / (rps : ℚ)) recipients.length
      (attemptSend_congr_no_kind tr content hk) recipients 1]
  · simp only [send_mass_message]
    refine mailLoop_events_all tr content (1 / (rps : ℚ)) recipients.length
      (fun e => !(isMediaSend e)) (fun d => rfl) ?_ recipients 1 _ rfl
    intro idx user a
    rcases attemptSend_no_kind tr idx user a content hk with h | h <;>
      rw [h] <;> simp [isMediaSend]
  · intro ht
    have h := mailLoop_skip tr content (1 / (rps : ℚ)) recipients.length ht
      (Or.inr hk) recipients 1
      { sent_count := 0, failed_count := 0, skipped_count := 0,
        error_summary := [], events := [] }
    simp only [send_mass_message]
    rw [h]
    simp

/-- Claim C10, witness: with text `"hi"` plus an orphan media reference,
the broadcast over [1, 2] equals the plain-text broadcast and emits no
media dispatch. -/
theorem C10_witness :
    send_mass_message trOk [1, 2] textPlusOrphanMedia 20 =
      send_mass_message trOk [1, 2]
        { textPlusOrphanMedia with media_file_id := none } 20 ∧
    ((send_mass_message trOk [1, 2] textPlusOrphanMedia 20).2.all
      fun e => !(isMediaSend e)) = true ∧
    (textPlusOrphanMedia.text = none →
      (send_mass_message trOk [1, 2] textPlusOrphanMedia 20).1 =
        { total_recipients := 2, sent_count := 0,
          failed_count := 0, skipped_count := 2,
          error_summary := [] } ∧
      (send_mass_message trOk [1, 2] textPlusOrphanMedia 20).2 = []) := by
  have h := C10_media_without_kind trOk [1, 2] textPlusOrphanMedia 20 rfl
  simpa using h

end Mailing
